import Mathlib

/-!
# DBGH_ASSERTS — formal model of the failure-resolution core

Shallow embedding of the leveled runtime-assertion framework.  The macro
layer (`src/include/DBGHAssert.h`: `IMPL_DBGH_ASSERT`,
`IMPL_DBGH_ASSERT_DEBUG`, `ASSERT_WARNING` / `ASSERT_ERROR` /
`ASSERT_FATAL` / `ASSERT_DEBUG`) is translated from the source.  The
`impl/` translation units (`CAssertConfig`, `CAssertHandler`,
`CHandlerExecutor`, `CAssertException`) are not part of the sources; the
definitions standing in for them are modelled from the specification and
carry a doc comment saying so.

Effects are made explicit: the guarded expression is a state transformer
`Nat → Bool × Nat`, and every collaborator interaction (gate query,
expression evaluation, message formatting, context construction, executor
invocation, report emission, prompting, reading input, the inline
breakpoint) is recorded in an event trace, so that "is never evaluated" /
"no side effect occurs" claims become statements about the trace.
-/

namespace dbgh

/-- The four assertion levels (`EAssertLevel` in the sources). -/
inductive EAssertLevel where
  | Debug
  | Warning
  | Error
  | Fatal
deriving DecidableEq, Repr

/-- Modelled from the spec: `impl/CAssertConfig.{h,cpp}` is not under
`src/`.  The Level Registry maps each assertion level to enabled/disabled
(§3: "a mapping level → enabled-bool"). -/
structure CAssertConfig where
  activeDebug : Bool
  activeWarning : Bool
  activeError : Bool
  activeFatal : Bool
deriving DecidableEq, Repr

namespace CAssertConfig

/-- Modelled from the spec: `CAssertConfig::IsActiveAssert` — reports
whether a level is enabled. -/
def IsActiveAssert (cfg : CAssertConfig) : EAssertLevel → Bool
  | .Debug => cfg.activeDebug
  | .Warning => cfg.activeWarning
  | .Error => cfg.activeError
  | .Fatal => cfg.activeFatal

/-- Modelled from the spec: `CAssertConfig::EnableAsserts` (§4.1
`Enable(level)`, idempotent, immediate). -/
def EnableAsserts (cfg : CAssertConfig) : EAssertLevel → CAssertConfig
  | .Debug => { cfg with activeDebug := true }
  | .Warning => { cfg with activeWarning := true }
  | .Error => { cfg with activeError := true }
  | .Fatal => { cfg with activeFatal := true }

/-- Modelled from the spec: `CAssertConfig::DisableAsserts` (§4.1
`Disable(level)`, idempotent, immediate). -/
def DisableAsserts (cfg : CAssertConfig) : EAssertLevel → CAssertConfig
  | .Debug => { cfg with activeDebug := false }
  | .Warning => { cfg with activeWarning := false }
  | .Error => { cfg with activeError := false }
  | .Fatal => { cfg with activeFatal := false }

/-- Modelled from the spec: registry defaults (§3: Warning and Error
enabled, Fatal disabled, Debug follows the compile-time debug/release
switch). -/
def defaults (debugSwitch : Bool) : CAssertConfig :=
  { activeDebug := debugSwitch
    activeWarning := true
    activeError := true
    activeFatal := false }

end CAssertConfig

/-- A C++ exception object as the dispatcher can observe it: its dynamic
type name, whether that dynamic type derives `dbgh::CAssertException`,
the message held in its `CAssertException` base subobject (meaningful
when it derives), and the full payload including any derived-class
state. -/
structure CppException where
  dynType : String
  derivesAssertException : Bool
  message : String
  payload : String
deriving DecidableEq, Repr

/-- Modelled from the spec: `impl/CAssertException.{h,cpp}` is not under
`src/`.  The assertion-escalation exception carries exactly the formatted
message string (§4.5). -/
def mkCAssertException (msg : String) : CppException :=
  { dynType := "dbgh::CAssertException"
    derivesAssertException := true
    message := msg
    payload := msg }

/-- C++ semantics of `catch (const dbgh::CAssertException& e) { throw e; }`
(`src/include/DBGHAssert.h:53-54` and `79-80`): the rethrown object is
copy-initialized from the static type of `e`, so a derived exception is
sliced to its `CAssertException` base subobject — the base message
survives, the dynamic type becomes `dbgh::CAssertException`, derived
state is lost. -/
def sliceToAssertException (e : CppException) : CppException :=
  mkCAssertException e.message

/-- What an invoked Handler Executor operation does, as observed by the
call site: return normally, throw an exception, or terminate the
process. -/
inductive ExecOutcome where
  | ret
  | throwExc (e : CppException)
  | term
deriving DecidableEq, Repr

/-- The failure context assembled by the dispatcher on a failing check
(§3 FailureContext): level, formatted message, expression text, file,
line, function, live uncaught-exception count. -/
structure FailureContext where
  level : EAssertLevel
  message : String
  expression : String
  file : String
  line : Nat
  function : String
  uncaughtCount : Nat
deriving DecidableEq, Repr

/-- Observable events of one check, in order of occurrence. -/
inductive Event where
  | gateQuery (l : EAssertLevel)
  | exprEval
  | formatCall
  | contextBuilt (ctx : FailureContext)
  | executorCall (l : EAssertLevel)
  | reportLine (s : String)
  | menuPrompt
  | readInput (tok : String)
  | breakpoint
deriving DecidableEq, Repr

/-- How one check statement terminates, from the caller's point of view:
fall through to the next statement, raise an exception out of the check,
terminate the process, or block forever on interactive input. -/
inductive DispatchResult where
  | fallThrough
  | raised (e : CppException)
  | terminated
  | blocked
deriving DecidableEq, Repr

/-- Result of one non-Debug check: caller-visible control flow, the
expression-effect state after the check, and the event trace. -/
structure DispatchOut where
  result : DispatchResult
  state : Nat
  events : List Event
deriving DecidableEq, Repr

/-- `IMPL_DBGH_ASSERT` (`src/include/DBGHAssert.h:46-57`), the
Warning/Error/Fatal dispatch:

`if (dbgh::CAssertConfig::Get().IsActiveAssert(_level_) && !bool(_expression_))`
`{ try { CAssertHandler::HandleAssert<_level_>(std::format(...), #_expression_, __FILE__, __LINE__, __func__); }`
`  catch (const dbgh::CAssertException& e) { throw e; } }`

`&&` short-circuits: the guarded expression is evaluated only when the
gate is active; `std::format`, context assembly and the handler call
happen only in the failure branch.  The handler argument stands for
`CAssertHandler::HandleAssert<level>` composed with the installed
executor's operation for that level; any exception it throws that is not
a `CAssertException` (statically) passes the `catch` clause unharmed,
while a `CAssertException`-derived one is caught by const reference and
rethrown by value, i.e. sliced. -/
def IMPL_DBGH_ASSERT (cfg : CAssertConfig) (level : EAssertLevel)
    (expr : Nat → Bool × Nat) (s : Nat)
    (msg exprText file : String) (line : Nat) (func : String)
    (uncaught : Nat)
    (handler : FailureContext → ExecOutcome × List Event) : DispatchOut :=
  if cfg.IsActiveAssert level then
    let (b, s') := expr s
    if b then
      { result := .fallThrough, state := s'
        events := [.gateQuery level, .exprEval] }
    else
      let ctx : FailureContext :=
        { level := level, message := msg, expression := exprText
          file := file, line := line, function := func
          uncaughtCount := uncaught }
      let (out, hev) := handler ctx
      let evs := [Event.gateQuery level, .exprEval, .formatCall,
                  .contextBuilt ctx, .executorCall level] ++ hev
      match out with
      | .ret => { result := .fallThrough, state := s', events := evs }
      | .throwExc e =>
          if e.derivesAssertException then
            { result := .raised (sliceToAssertException e), state := s'
              events := evs }
          else
            { result := .raised e, state := s', events := evs }
      | .term => { result := .terminated, state := s', events := evs }
  else
    { result := .fallThrough, state := s, events := [.gateQuery level] }

/-- The five terminal resolutions of the Interactive Resolution Protocol
(§4.3): Continue, Suppressed (ignore forever), Break, Escalate, Abort. -/
inductive Resolution where
  | Continue
  | Suppressed
  | Break
  | Escalate
  | Abort
deriving DecidableEq, Repr

/-- Modelled from the spec: the interactive input parsing of
`impl/CAssertHandler.cpp`, which is not under `src/`.  The command
alphabet is exactly the single characters I, F, D, T, B,
case-insensitive, read as one token (§4.3 step 2, §6); anything else is
invalid. -/
def parseCommand (tok : String) : Option Resolution :=
  if tok = "I" ∨ tok = "i" then some .Continue
  else if tok = "F" ∨ tok = "f" then some .Suppressed
  else if tok = "D" ∨ tok = "d" then some .Break
  else if tok = "T" ∨ tok = "t" then some .Escalate
  else if tok = "B" ∨ tok = "b" then some .Abort
  else none

/-- Modelled from the spec: the prompt loop of `impl/CAssertHandler.cpp`
(§4.3 steps 2-4).  Each iteration emits the menu and blocks reading one
token; an invalid token re-prompts with no terminal transition; running
out of input models a read that blocks forever (`none`). -/
def promptLoop : List String → Option Resolution × List Event
  | [] => (none, [.menuPrompt])
  | t :: ts =>
      match parseCommand t with
      | some r => (some r, [.menuPrompt, .readInput t])
      | none =>
          let (r, evs) := promptLoop ts
          (r, .menuPrompt :: .readInput t :: evs)

/-- What `CAssertHandler::HandleAssert<Debug>` does, as observed by the
call site: return normally, throw the internal
`SStartDebuggingException` signal, throw an ordinary exception, terminate
the process, or block forever on input. -/
inductive DebugHandlerOutcome where
  | ret
  | throwStartDebugging
  | throwExc (e : CppException)
  | term
  | blockedOnInput
deriving DecidableEq, Repr

/-- A handler outcome that travels from the handler to the call site by
throwing an exception and unwinding the stack (either the distinguished
`SStartDebuggingException` signal or an ordinary exception such as
`CAssertException`). -/
def DebugHandlerOutcome.unwindsViaException : DebugHandlerOutcome → Bool
  | .throwStartDebugging => true
  | .throwExc _ => true
  | _ => false

/-- §4.2 default report layout:
`[<LEVEL>] Uncaught: <N>, File: <file>, Function: <fn>, Line: <line>, Expression: "<expr>", Message: <message>`. -/
def levelName : EAssertLevel → String
  | .Debug => "DEBUG"
  | .Warning => "WARNING"
  | .Error => "ERROR"
  | .Fatal => "FATAL"

/-- Modelled from the spec: the default report line written by
`impl/CHandlerExecutor.cpp` (§4.2, exact and order-significant). -/
def reportString (ctx : FailureContext) : String :=
  "[" ++ levelName ctx.level ++ "] Uncaught: " ++
    toString ctx.uncaughtCount ++ ", File: " ++ ctx.file ++
    ", Function: " ++ ctx.function ++ ", Line: " ++ toString ctx.line ++
    ", Expression: \"" ++ ctx.expression ++ "\", Message: " ++ ctx.message

/-- Modelled from the spec: translation of a terminal resolution inside
`CAssertHandler::HandleAssert<Debug>` (not under `src/`).  Continue and
Suppressed return normally (Suppressed first sets the per-site ignore
latch through the reference the macro passed in); Break throws the
internal `SStartDebuggingException` signal; Escalate throws
`CAssertException` carrying the formatted message; Abort calls the
executor's Terminate, which ends the process (§4.3 step 4, §4.4 step 4).
The returned Bool is the latch value written back through
`ignoreLatchRef`. -/
def resolutionOutcome (msg : String) (latch : Bool) :
    Resolution → DebugHandlerOutcome × Bool
  | .Continue => (.ret, latch)
  | .Suppressed => (.ret, true)
  | .Break => (.throwStartDebugging, latch)
  | .Escalate => (.throwExc (mkCAssertException msg), latch)
  | .Abort => (.term, latch)

/-- Modelled from the spec: `CAssertHandler::HandleAssert<Debug>`
(`impl/CAssertHandler.cpp` is not under `src/`).  Reports the context,
runs the Interactive Resolution Protocol on the input stream, and
translates the terminal resolution (§4.3); called only when the per-site
latch is still false. -/
def HandleAssertDebug (ctx : FailureContext) (latch : Bool)
    (inputs : List String) : DebugHandlerOutcome × Bool × List Event :=
  let (res, pev) := promptLoop inputs
  let evs := Event.reportLine (reportString ctx) :: pev
  match res with
  | none => (.blockedOnInput, latch, evs)
  | some r =>
      let (out, latch') := resolutionOutcome ctx.message latch r
      (out, latch', evs)

/-- Result of one Debug-level check at one call site: caller-visible
control flow, expression-effect state, the site's ignore latch after the
check, and the event trace. -/
structure DebugDispatchOut where
  result : DispatchResult
  state : Nat
  latch : Bool
  events : List Event
deriving DecidableEq, Repr

/-- `IMPL_DBGH_ASSERT_DEBUG` (`src/include/DBGHAssert.h:68-85`), the
Debug dispatch:

`{ static bool __ignore { false };`
`  if ((!__ignore) && (CAssertConfig::Get().IsActiveAssert(_level_)) && (!bool(_expression_)))`
`  { try { CAssertHandler::HandleAssert<_level_>(std::format(...), #_expression_, __FILE__, __LINE__, __func__, __ignore); }`
`    catch (const dbgh::impl::CAssertHandler::SStartDebuggingException) { START_DEBUGGING; }`
`    catch (const dbgh::CAssertException& e) { throw e; } } }`

`&&` short-circuits left to right: with the latch set, neither the gate
nor the expression is touched; with the gate inactive, the expression is
not evaluated.  The `SStartDebuggingException` signal is caught first and
the breakpoint instruction executes inline in the caller's frame, after
which control falls through; a `CAssertException` is caught by const
reference and rethrown by value (sliced); any other exception
propagates. -/
def IMPL_DBGH_ASSERT_DEBUG (cfg : CAssertConfig) (level : EAssertLevel)
    (latch : Bool) (expr : Nat → Bool × Nat) (s : Nat)
    (msg exprText file : String) (line : Nat) (func : String)
    (uncaught : Nat) (inputs : List String) : DebugDispatchOut :=
  if latch then
    { result := .fallThrough, state := s, latch := latch, events := [] }
  else if cfg.IsActiveAssert level then
    let (b, s') := expr s
    if b then
      { result := .fallThrough, state := s', latch := latch
        events := [.gateQuery level, .exprEval] }
    else
      let ctx : FailureContext :=
        { level := level, message := msg, expression := exprText
          file := file, line := line, function := func
          uncaughtCount := uncaught }
      let (out, latch', hev) := HandleAssertDebug ctx latch inputs
      let evs := [Event.gateQuery level, .exprEval, .formatCall,
                  .contextBuilt ctx, .executorCall level] ++ hev
      match out with
      | .ret => { result := .fallThrough, state := s', latch := latch'
                  events := evs }
      | .throwStartDebugging =>
          { result := .fallThrough, state := s', latch := latch'
            events := evs ++ [.breakpoint] }
      | .throwExc e =>
          if e.derivesAssertException then
            { result := .raised (sliceToAssertException e), state := s'
              latch := latch', events := evs }
          else
            { result := .raised e, state := s', latch := latch'
              events := evs }
      | .term => { result := .terminated, state := s', latch := latch'
                   events := evs }
      | .blockedOnInput =>
          { result := .blocked, state := s', latch := latch'
            events := evs }
  else
    { result := .fallThrough, state := s, latch := latch
      events := [.gateQuery level] }

/-- Modelled from the spec: the default Handler Executor operations of
`impl/CHandlerExecutor.cpp` (not under `src/`), reached through
`CAssertHandler::HandleAssert<level>` for the non-Debug levels (§4.2):
`HandleWarning` reports and returns normally; `HandleError` reports and
fails with the assertion-escalation exception carrying the formatted
message; `HandleFatal` reports and terminates the process. -/
def defaultHandler (ctx : FailureContext) : ExecOutcome × List Event :=
  match ctx.level with
  | .Warning => (.ret, [.reportLine (reportString ctx)])
  | .Error => (.throwExc (mkCAssertException ctx.message),
               [.reportLine (reportString ctx)])
  | _ => (.term, [.reportLine (reportString ctx)])

/-- The per-site ignore latches: every textual Debug call site owns one
boolean, indexed here by a site identifier.  `static bool __ignore { false }`
(`src/include/DBGHAssert.h:70`) zero-initializes each site's latch. -/
def initialLatches : Nat → Bool := fun _ => false

/-- One Debug-level check executed at call site `site` against the whole
latch table: the site's own `static bool __ignore` is read and written,
every other site's latch is untouched. -/
def debugSiteStep (latches : Nat → Bool) (site : Nat)
    (cfg : CAssertConfig) (level : EAssertLevel)
    (expr : Nat → Bool × Nat) (s : Nat)
    (msg exprText file : String) (line : Nat) (func : String)
    (uncaught : Nat) (inputs : List String) :
    DebugDispatchOut × (Nat → Bool) :=
  let o := IMPL_DBGH_ASSERT_DEBUG cfg level (latches site) expr s
    msg exprText file line func uncaught inputs
  (o, fun t => if t = site then o.latch else latches t)

/-- `ASSERT_DEBUG` (`src/include/DBGHAssert.h:140`): expands to
`IMPL_DBGH_ASSERT_DEBUG(dbgh::EAssertLevel::Debug, ...)`. -/
def ASSERT_DEBUG (cfg : CAssertConfig) (latch : Bool)
    (expr : Nat → Bool × Nat) (s : Nat)
    (msg exprText file : String) (line : Nat) (func : String)
    (uncaught : Nat) (inputs : List String) : DebugDispatchOut :=
  IMPL_DBGH_ASSERT_DEBUG cfg .Debug latch expr s msg exprText file line
    func uncaught inputs

/-- `ASSERT_WARNING` when the compile-time `DEBUG` switch is set
(`src/include/DBGHAssert.h:291`): expands to
`IMPL_DBGH_ASSERT_DEBUG(dbgh::EAssertLevel::Debug, ...)`. -/
def ASSERT_WARNING_debugMode (cfg : CAssertConfig) (latch : Bool)
    (expr : Nat → Bool × Nat) (s : Nat)
    (msg exprText file : String) (line : Nat) (func : String)
    (uncaught : Nat) (inputs : List String) : DebugDispatchOut :=
  IMPL_DBGH_ASSERT_DEBUG cfg .Debug latch expr s msg exprText file line
    func uncaught inputs

/-- `ASSERT_ERROR` when the compile-time `DEBUG` switch is set
(`src/include/DBGHAssert.h:292`): expands to
`IMPL_DBGH_ASSERT_DEBUG(dbgh::EAssertLevel::Debug, ...)`. -/
def ASSERT_ERROR_debugMode (cfg : CAssertConfig) (latch : Bool)
    (expr : Nat → Bool × Nat) (s : Nat)
    (msg exprText file : String) (line : Nat) (func : String)
    (uncaught : Nat) (inputs : List String) : DebugDispatchOut :=
  IMPL_DBGH_ASSERT_DEBUG cfg .Debug latch expr s msg exprText file line
    func uncaught inputs

/-- `ASSERT_FATAL` when the compile-time `DEBUG` switch is set
(`src/include/DBGHAssert.h:293`): expands to
`IMPL_DBGH_ASSERT_DEBUG(dbgh::EAssertLevel::Debug, ...)`. -/
def ASSERT_FATAL_debugMode (cfg : CAssertConfig) (latch : Bool)
    (expr : Nat → Bool × Nat) (s : Nat)
    (msg exprText file : String) (line : Nat) (func : String)
    (uncaught : Nat) (inputs : List String) : DebugDispatchOut :=
  IMPL_DBGH_ASSERT_DEBUG cfg .Debug latch expr s msg exprText file line
    func uncaught inputs

/-- Spec-side definition (claim C4's table, spec §4.4 step 4): the
caller-visible control flow the spec assigns to each terminal resolution
of a Debug-level failing check, to be compared with the source-derived
dispatch. -/
def specResolutionResult (msg : String) : Resolution → DispatchResult
  | .Continue => .fallThrough
  | .Suppressed => .fallThrough
  | .Break => .fallThrough
  | .Escalate => .raised (mkCAssertException msg)
  | .Abort => .terminated

/-- Proposition that `sub` occurs as a contiguous substring of `s`. -/
def ContainsSubstr (s sub : String) : Prop :=
  ∃ a b, s = a ++ (sub ++ b)

/-- Sample registry with every level enabled, for concrete evaluations. -/
def cfgAll : CAssertConfig :=
  { activeDebug := true, activeWarning := true, activeError := true
    activeFatal := true }

/-- Sample exception whose dynamic type derives `dbgh::CAssertException`
and carries extra derived-class state, as a custom executor may throw. -/
def eDerivedSample : CppException :=
  { dynType := "client::CDerivedAssertError"
    derivesAssertException := true
    message := "base message"
    payload := "base message plus derived state" }

/-- Sample failure context at Debug level, for concrete evaluations. -/
def ctxDebugSample : FailureContext :=
  { level := .Debug, message := "m", expression := "x > 0"
    file := "f.cpp", line := 10, function := "fn", uncaughtCount := 0 }

end dbgh

namespace dbgh

/-- The prompt loop never emits a breakpoint event: the breakpoint is
executed only at the call site, never inside the handler. -/
lemma breakpoint_not_in_promptLoop (inputs : List String) :
    Event.breakpoint ∉ (promptLoop inputs).2 := by
  induction inputs with
  | nil => simp [promptLoop]
  | cons t ts ih =>
      rcases h : parseCommand t with _ | r
      · simpa [promptLoop, h] using ih
      · simp [promptLoop, h]

/-- A latched Debug site stays latched: the short-circuit on `__ignore`
returns without touching it. -/
lemma debug_latch_mono (cfg : CAssertConfig) (level : EAssertLevel)
    (expr : Nat → Bool × Nat) (s : Nat) (msg exprText file : String)
    (line : Nat) (func : String) (uncaught : Nat) (inputs : List String) :
    (IMPL_DBGH_ASSERT_DEBUG cfg level true expr s msg exprText file line
      func uncaught inputs).latch = true := by
  simp [IMPL_DBGH_ASSERT_DEBUG]

/-- The only way a Debug site's latch can come out true is that it was
already true or the interactive protocol resolved to Suppressed (the
explicit ignore-forever command). -/
lemma debug_latch_set_only_by_suppress (cfg : CAssertConfig)
    (level : EAssertLevel) (latch : Bool) (expr : Nat → Bool × Nat)
    (s : Nat) (msg exprText file : String) (line : Nat) (func : String)
    (uncaught : Nat) (inputs : List String) :
    (IMPL_DBGH_ASSERT_DEBUG cfg level latch expr s msg exprText file line
      func uncaught inputs).latch = true →
    latch = true ∨ (promptLoop inputs).1 = some .Suppressed := by
  cases latch with
  | true => intro _; exact Or.inl rfl
  | false =>
      intro h
      refine Or.inr ?_
      rcases hA : cfg.IsActiveAssert level with _ | _
      · simp [IMPL_DBGH_ASSERT_DEBUG, hA] at h
      · rcases hp : expr s with ⟨b, s2⟩
        rcases b with _ | _
        · rcases hq : promptLoop inputs with ⟨res, pev⟩
          rcases res with _ | r
          · simp [IMPL_DBGH_ASSERT_DEBUG, hA, hp, HandleAssertDebug,
              hq] at h
          · (cases r <;>
              simp [IMPL_DBGH_ASSERT_DEBUG, hA, hp, HandleAssertDebug,
                hq, resolutionOutcome, sliceToAssertException,
                mkCAssertException] at h);
            simp [hq]
        · simp [IMPL_DBGH_ASSERT_DEBUG, hA, hp] at h

end dbgh

namespace dbgh

/-- C8: when the compile-time `DEBUG` switch is set, `ASSERT_WARNING`,
`ASSERT_ERROR` and `ASSERT_FATAL` expand to
`IMPL_DBGH_ASSERT_DEBUG(dbgh::EAssertLevel::Debug, ...)` exactly as
`ASSERT_DEBUG` does (`src/include/DBGHAssert.h:140,291-293`): for every
configuration, latch, expression, message and input stream their
behavior is the Debug-level interactive dispatch, identical to
`ASSERT_DEBUG`. -/
theorem C8_debug_switch_forces_interactive (cfg : CAssertConfig)
    (latch : Bool) (expr : Nat → Bool × Nat) (s : Nat)
    (msg exprText file : String) (line : Nat) (func : String)
    (uncaught : Nat) (inputs : List String) :
    ASSERT_WARNING_debugMode cfg latch expr s msg exprText file line func
        uncaught inputs
      = ASSERT_DEBUG cfg latch expr s msg exprText file line func
        uncaught inputs
    ∧ ASSERT_ERROR_debugMode cfg latch expr s msg exprText file line func
        uncaught inputs
      = ASSERT_DEBUG cfg latch expr s msg exprText file line func
        uncaught inputs
    ∧ ASSERT_FATAL_debugMode cfg latch expr s msg exprText file line func
        uncaught inputs
      = ASSERT_DEBUG cfg latch expr s msg exprText file line func
        uncaught inputs :=
  ⟨rfl, rfl, rfl⟩

/-- C9: once a Debug site's ignore latch is true, a later invocation of
the check is a complete no-op: the `__ignore` test is the first conjunct
of the short-circuiting `&&` chain
(`src/include/DBGHAssert.h:71`), so the event trace is empty — in
particular `IsActiveAssert` is not queried and the guarded expression is
not evaluated (no side effect inside it can occur) — the state is
unchanged, the latch stays true, and control falls through. -/
theorem C9_latched_site_evaluates_nothing (cfg : CAssertConfig)
    (level : EAssertLevel) (expr : Nat → Bool × Nat) (s : Nat)
    (msg exprText file : String) (line : Nat) (func : String)
    (uncaught : Nat) (inputs : List String) :
    IMPL_DBGH_ASSERT_DEBUG cfg level true expr s msg exprText file line
        func uncaught inputs
      = { result := .fallThrough, state := s, latch := true
          events := [] } := by
  simp [IMPL_DBGH_ASSERT_DEBUG]

/-- C1: when the Level Registry reports the level inactive (for example
after `DisableAsserts`), a check at that level does nothing observable:
the only event is the gate query itself — the guarded expression is not
evaluated, no message is formatted, no FailureContext is built, no
executor operation is invoked — the expression state and the ignore
latch are unchanged and control falls through.  This holds for both the
`IMPL_DBGH_ASSERT` and the `IMPL_DBGH_ASSERT_DEBUG` form (in the latter,
a latched site short-circuits before even the gate query). -/
theorem C1_inactive_gate_is_noop (cfg : CAssertConfig)
    (level : EAssertLevel) (expr : Nat → Bool × Nat) (s : Nat)
    (msg exprText file : String) (line : Nat) (func : String)
    (uncaught : Nat)
    (handler : FailureContext → ExecOutcome × List Event)
    (latch : Bool) (inputs : List String)
    (h : cfg.IsActiveAssert level = false) :
    IMPL_DBGH_ASSERT cfg level expr s msg exprText file line func
        uncaught handler
      = { result := .fallThrough, state := s
          events := [.gateQuery level] }
    ∧ IMPL_DBGH_ASSERT_DEBUG cfg level latch expr s msg exprText file
        line func uncaught inputs
      = { result := .fallThrough, state := s, latch := latch
          events := if latch then [] else [.gateQuery level] } := by
  constructor
  · simp [IMPL_DBGH_ASSERT, h]
  · cases latch <;> simp [IMPL_DBGH_ASSERT_DEBUG, h]

/-- C1 witness: after disabling Warning in the default registry, a check
whose guarded expression fails (and would bump the state) is a no-op. -/
theorem C1_inactive_gate_is_noop_witness :
    ((CAssertConfig.defaults true).DisableAsserts .Warning).IsActiveAssert
        .Warning = false
    ∧ IMPL_DBGH_ASSERT ((CAssertConfig.defaults true).DisableAsserts
          .Warning) .Warning (fun s => (false, s + 7)) 0 "m" "x" "f.cpp" 3
          "fn" 0 defaultHandler
      = { result := .fallThrough, state := 0
          events := [.gateQuery .Warning] }
    ∧ IMPL_DBGH_ASSERT_DEBUG ((CAssertConfig.defaults true).DisableAsserts
          .Warning) .Warning false (fun s => (false, s + 7)) 0 "m" "x"
          "f.cpp" 3 "fn" 0 ["T"]
      = { result := .fallThrough, state := 0, latch := false
          events := [.gateQuery .Warning] } :=
  ⟨by decide,
   (C1_inactive_gate_is_noop ((CAssertConfig.defaults true).DisableAsserts
        .Warning) .Warning (fun s => (false, s + 7)) 0 "m" "x" "f.cpp" 3
      "fn" 0 defaultHandler false ["T"] (by decide)).1,
   (C1_inactive_gate_is_noop ((CAssertConfig.defaults true).DisableAsserts
        .Warning) .Warning (fun s => (false, s + 7)) 0 "m" "x" "f.cpp" 3
      "fn" 0 defaultHandler false ["T"] (by decide)).2⟩

/-- C10: a passing check (gate active, guarded expression true) causes
no failure-branch effect: `std::format` is inside the failure branch
(`src/include/DBGHAssert.h:50,74`), so the trace holds exactly the gate
query and the expression evaluation — no formatting, no FailureContext,
no executor invocation, no report — the only state change is the
expression's own evaluation, the latch is unchanged and control falls
through.  Both macro forms. -/
theorem C10_passing_check_no_failure_effects (cfg : CAssertConfig)
    (level : EAssertLevel) (expr : Nat → Bool × Nat) (s : Nat)
    (msg exprText file : String) (line : Nat) (func : String)
    (uncaught : Nat)
    (handler : FailureContext → ExecOutcome × List Event)
    (inputs : List String)
    (hA : cfg.IsActiveAssert level = true)
    (hE : (expr s).1 = true) :
    IMPL_DBGH_ASSERT cfg level expr s msg exprText file line func
        uncaught handler
      = { result := .fallThrough, state := (expr s).2
          events := [.gateQuery level, .exprEval] }
    ∧ IMPL_DBGH_ASSERT_DEBUG cfg level false expr s msg exprText file
        line func uncaught inputs
      = { result := .fallThrough, state := (expr s).2, latch := false
          events := [.gateQuery level, .exprEval] } := by
  rcases hp : expr s with ⟨b, s2⟩
  have hb : b = true := by simpa [hp] using hE
  subst hb
  constructor
  · simp [IMPL_DBGH_ASSERT, hA, hp]
  · simp [IMPL_DBGH_ASSERT_DEBUG, hA, hp]

/-- C10 witness: a concrete passing check at Error level whose expression
bumps the state from 4 to 5; the trace shows only the gate query and the
expression evaluation. -/
theorem C10_passing_check_no_failure_effects_witness :
    cfgAll.IsActiveAssert .Error = true
    ∧ ((fun s => (true, s + 1)) 4 : Bool × Nat).1 = true
    ∧ IMPL_DBGH_ASSERT cfgAll .Error (fun s => (true, s + 1)) 4 "m" "x"
        "f.cpp" 3 "fn" 0 defaultHandler
      = { result := .fallThrough, state := 5
          events := [.gateQuery .Error, .exprEval] }
    ∧ IMPL_DBGH_ASSERT_DEBUG cfgAll .Error false (fun s => (true, s + 1))
        4 "m" "x" "f.cpp" 3 "fn" 0 ["T"]
      = { result := .fallThrough, state := 5, latch := false
          events := [.gateQuery .Error, .exprEval] } :=
  ⟨by decide, by decide,
   (C10_passing_check_no_failure_effects cfgAll .Error
      (fun s => (true, s + 1)) 4 "m" "x"
      "f.cpp" 3 "fn" 0 defaultHandler ["T"] (by decide) (by decide)).1,
   (C10_passing_check_no_failure_effects cfgAll .Error
      (fun s => (true, s + 1)) 4 "m" "x"
      "f.cpp" 3 "fn" 0 defaultHandler ["T"] (by decide) (by decide)).2⟩

/-- C2 counterexample: the claim says every exception thrown by the
installed executor reaches the caller with its dynamic type and payload
preserved exactly.  It is false: `catch (const dbgh::CAssertException& e)`
`{ throw e; }` (`src/include/DBGHAssert.h:53-54`) rethrows by value, so
an executor throwing an exception whose dynamic type derives
`CAssertException` (here `eDerivedSample`) reaches the caller sliced to
the base type — dynamic type and payload are changed. -/
theorem C2_counterexample :
    (IMPL_DBGH_ASSERT cfgAll .Error (fun s => (false, s)) 0 "m" "x"
        "f.cpp" 3 "fn" 0 (fun _ => (.throwExc eDerivedSample, []))).result
      = .raised (mkCAssertException "base message")
    ∧ (IMPL_DBGH_ASSERT cfgAll .Error (fun s => (false, s)) 0 "m" "x"
        "f.cpp" 3 "fn" 0 (fun _ => (.throwExc eDerivedSample, []))).result
      ≠ .raised eDerivedSample
    ∧ (mkCAssertException "base message").dynType ≠ eDerivedSample.dynType
    ∧ (mkCAssertException "base message").payload ≠ eDerivedSample.payload
    := by decide

/-- C2 amended: for a Warning/Error/Fatal failing check, an exception
thrown by the installed executor is never wrapped, and one whose dynamic
type does not derive `dbgh::CAssertException` reaches the caller
unmodified; but an exception whose dynamic type derives
`CAssertException` is rethrown by value at the call site and so reaches
the caller sliced to a plain `CAssertException`: its base-subobject
message is preserved, its dynamic type and derived payload are not. -/
theorem C2_executor_exception_propagation (cfg : CAssertConfig)
    (level : EAssertLevel) (expr : Nat → Bool × Nat) (s : Nat)
    (msg exprText file : String) (line : Nat) (func : String)
    (uncaught : Nat) (e : CppException) (hev : List Event)
    (hA : cfg.IsActiveAssert level = true)
    (hE : (expr s).1 = false) :
    (IMPL_DBGH_ASSERT cfg level expr s msg exprText file line func
        uncaught (fun _ => (.throwExc e, hev))).result
      = .raised (if e.derivesAssertException then sliceToAssertException e
                 else e)
    ∧ (sliceToAssertException e).message = e.message
    ∧ (e.derivesAssertException = false →
        (IMPL_DBGH_ASSERT cfg level expr s msg exprText file line func
            uncaught (fun _ => (.throwExc e, hev))).result = .raised e) := by
  rcases hp : expr s with ⟨b, s2⟩
  have hb : b = false := by simpa [hp] using hE
  subst hb
  refine ⟨?_, rfl, ?_⟩
  · rcases hd : e.derivesAssertException with _ | _ <;>
      simp [IMPL_DBGH_ASSERT, hA, hp, hd]
  · intro hd
    simp [IMPL_DBGH_ASSERT, hA, hp, hd]

/-- C2 amended witness: a `std::runtime_error`-style exception (not
derived from `CAssertException`) thrown by a custom executor reaches the
caller exactly as thrown. -/
theorem C2_executor_exception_propagation_witness :
    cfgAll.IsActiveAssert .Fatal = true
    ∧ ((fun s => (false, s)) 0 : Bool × Nat).1 = false
    ∧ (IMPL_DBGH_ASSERT cfgAll .Fatal (fun s => (false, s)) 0 "m" "x"
        "f.cpp" 3 "fn" 0 (fun _ =>
          (.throwExc { dynType := "std::runtime_error"
                       derivesAssertException := false
                       message := "boom", payload := "boom" }, []))).result
      = .raised { dynType := "std::runtime_error"
                  derivesAssertException := false
                  message := "boom", payload := "boom" } :=
  ⟨by decide, by decide,
   (C2_executor_exception_propagation cfgAll .Fatal (fun s => (false, s))
      0 "m" "x" "f.cpp" 3
      "fn" 0 { dynType := "std::runtime_error"
               derivesAssertException := false
               message := "boom", payload := "boom" } []
      (by decide) (by decide)).2.2 (by decide)⟩

/-- C3 counterexample: the claim says the Break resolution is not
propagated from the handler to the call site by unwinding the stack
through an exception.  It is false: on the Break command the handler
surfaces the resolution precisely by throwing the internal
`SStartDebuggingException` signal, which unwinds to the call-site
`catch` (`src/include/DBGHAssert.h:77-78`); here, with input `"D"`, the
handler outcome is that thrown signal and `unwindsViaException` holds of
it. -/
theorem C3_counterexample :
    (HandleAssertDebug ctxDebugSample false ["D"]).1
      = .throwStartDebugging
    ∧ ((HandleAssertDebug ctxDebugSample false ["D"]).1).unwindsViaException
      = true := by decide

/-- C3 amended: the Break resolution is propagated from the handler to
the call site by throwing the dedicated `SStartDebuggingException`
signal — an exception type distinguished from the assertion-escalation
exception `CAssertException` — which the dispatcher catches first at the
call site; the platform breakpoint instruction (`START_DEBUGGING`) then
executes inline in the caller's frame and control falls through. -/
theorem C3_break_surfaced_as_distinguished_signal (cfg : CAssertConfig)
    (expr : Nat → Bool × Nat) (s : Nat) (msg exprText file : String)
    (line : Nat) (func : String) (uncaught : Nat) (inputs : List String)
    (hA : cfg.IsActiveAssert .Debug = true)
    (hE : (expr s).1 = false)
    (hR : (promptLoop inputs).1 = some .Break) :
    (HandleAssertDebug
        { level := .Debug, message := msg, expression := exprText,
          file := file, line := line, function := func,
          uncaughtCount := uncaught } false inputs).1
      = .throwStartDebugging
    ∧ (IMPL_DBGH_ASSERT_DEBUG cfg .Debug false expr s msg exprText file
        line func uncaught inputs).result = .fallThrough
    ∧ Event.breakpoint ∈ (IMPL_DBGH_ASSERT_DEBUG cfg .Debug false expr s
        msg exprText file line func uncaught inputs).events := by
  rcases hq : promptLoop inputs with ⟨res, pev⟩
  rw [hq] at hR
  have hres : res = some Resolution.Break := hR
  subst hres
  rcases hp : expr s with ⟨b, s2⟩
  have hb : b = false := by simpa [hp] using hE
  subst hb
  refine ⟨?_, ?_, ?_⟩ <;>
    simp [HandleAssertDebug, hq, resolutionOutcome,
      IMPL_DBGH_ASSERT_DEBUG, hA, hp]

/-- C3 amended witness: concrete run with input `"D"` at an active Debug
gate and a failing expression. -/
theorem C3_break_surfaced_as_distinguished_signal_witness :
    cfgAll.IsActiveAssert .Debug = true
    ∧ (((fun s => (false, s)) : Nat → Bool × Nat) 0).1 = false
    ∧ (promptLoop ["D"]).1 = some Resolution.Break
    ∧ (HandleAssertDebug
        { level := .Debug, message := "m", expression := "x",
          file := "f.cpp", line := 3, function := "fn",
          uncaughtCount := 0 } false ["D"]).1 = .throwStartDebugging
    ∧ (IMPL_DBGH_ASSERT_DEBUG cfgAll .Debug false (fun s => (false, s)) 0
        "m" "x" "f.cpp" 3 "fn" 0 ["D"]).result = .fallThrough
    ∧ Event.breakpoint ∈ (IMPL_DBGH_ASSERT_DEBUG cfgAll .Debug false
        (fun s => (false, s)) 0 "m" "x" "f.cpp" 3 "fn" 0 ["D"]).events :=
  ⟨by decide, by decide, by decide,
   (C3_break_surfaced_as_distinguished_signal cfgAll
      (fun s => (false, s)) 0 "m" "x" "f.cpp"
      3 "fn" 0 ["D"] (by decide) (by decide) (by decide)).1,
   (C3_break_surfaced_as_distinguished_signal cfgAll
      (fun s => (false, s)) 0 "m" "x" "f.cpp"
      3 "fn" 0 ["D"] (by decide) (by decide) (by decide)).2.1,
   (C3_break_surfaced_as_distinguished_signal cfgAll
      (fun s => (false, s)) 0 "m" "x" "f.cpp"
      3 "fn" 0 ["D"] (by decide) (by decide) (by decide)).2.2⟩

/-- C4: for a Debug-level failing check (gate active, latch clear), the
terminal resolution of the interactive protocol is translated at the
call site exactly as the spec says: Continue and Suppressed fall through
silently; Escalate raises `CAssertException` carrying the formatted
message; Abort terminates the process; Break falls through after the
breakpoint — and the breakpoint event occurs exactly when the resolution
is Break. -/
theorem C4_debug_resolution_translation (cfg : CAssertConfig)
    (expr : Nat → Bool × Nat) (s : Nat) (msg exprText file : String)
    (line : Nat) (func : String) (uncaught : Nat) (inputs : List String)
    (r : Resolution)
    (hA : cfg.IsActiveAssert .Debug = true)
    (hE : (expr s).1 = false)
    (hR : (promptLoop inputs).1 = some r) :
    (IMPL_DBGH_ASSERT_DEBUG cfg .Debug false expr s msg exprText file
        line func uncaught inputs).result
      = specResolutionResult msg r
    ∧ (Event.breakpoint ∈ (IMPL_DBGH_ASSERT_DEBUG cfg .Debug false expr s
          msg exprText file line func uncaught inputs).events
        ↔ r = .Break) := by
  rcases hq : promptLoop inputs with ⟨res, pev⟩
  rw [hq] at hR
  have hres : res = some r := hR
  subst hres
  have hpev : Event.breakpoint ∉ pev := by
    have h := breakpoint_not_in_promptLoop inputs
    rw [hq] at h
    exact h
  rcases hp : expr s with ⟨b, s2⟩
  have hb : b = false := by simpa [hp] using hE
  subst hb
  constructor
  · cases r <;>
      simp [IMPL_DBGH_ASSERT_DEBUG, hA, hp, HandleAssertDebug, hq,
        resolutionOutcome, sliceToAssertException, mkCAssertException,
        specResolutionResult]
  · cases r <;>
      simp [IMPL_DBGH_ASSERT_DEBUG, hA, hp, HandleAssertDebug, hq,
        resolutionOutcome, sliceToAssertException, mkCAssertException,
        hpev]

/-- C4 witness: with the invalid token `"q"` followed by `"t"`, the
protocol resolves to Escalate and the caller receives
`CAssertException` carrying the formatted message. -/
theorem C4_debug_resolution_translation_witness :
    cfgAll.IsActiveAssert .Debug = true
    ∧ (((fun s => (false, s)) : Nat → Bool × Nat) 0).1 = false
    ∧ (promptLoop ["q", "t"]).1 = some Resolution.Escalate
    ∧ (IMPL_DBGH_ASSERT_DEBUG cfgAll .Debug false (fun s => (false, s)) 0
        "boom" "x" "f.cpp" 3 "fn" 0 ["q", "t"]).result
      = .raised (mkCAssertException "boom")
    ∧ (Event.breakpoint ∈ (IMPL_DBGH_ASSERT_DEBUG cfgAll .Debug false
          (fun s => (false, s)) 0 "boom" "x" "f.cpp" 3 "fn" 0
          ["q", "t"]).events
        ↔ Resolution.Escalate = Resolution.Break) :=
  ⟨by decide, by decide, by decide,
   (C4_debug_resolution_translation cfgAll (fun s => (false, s)) 0
      "boom" "x" "f.cpp" 3 "fn"
      0 ["q", "t"] .Escalate (by decide) (by decide) (by decide)).1,
   (C4_debug_resolution_translation cfgAll (fun s => (false, s)) 0
      "boom" "x" "f.cpp" 3 "fn"
      0 ["q", "t"] .Escalate (by decide) (by decide) (by decide)).2⟩

/-- C5: each Debug call site's `static bool __ignore` starts false, is
read and written only by that site's dispatch, transitions only from
false to true, and flips only when the interactive protocol resolves to
Suppressed (the explicit ignore-forever command); a step at `site`
leaves every other site's latch untouched. -/
theorem C5_per_site_ignore_latch (latches : Nat → Bool) (site : Nat)
    (cfg : CAssertConfig) (level : EAssertLevel)
    (expr : Nat → Bool × Nat) (s : Nat) (msg exprText file : String)
    (line : Nat) (func : String) (uncaught : Nat)
    (inputs : List String) :
    initialLatches site = false
    ∧ (∀ t, t ≠ site →
        (debugSiteStep latches site cfg level expr s msg exprText file
          line func uncaught inputs).2 t = latches t)
    ∧ (latches site = true →
        (debugSiteStep latches site cfg level expr s msg exprText file
          line func uncaught inputs).2 site = true)
    ∧ ((debugSiteStep latches site cfg level expr s msg exprText file
          line func uncaught inputs).2 site = true →
        latches site = true ∨ (promptLoop inputs).1 = some .Suppressed) := by
  refine ⟨rfl, ?_, ?_, ?_⟩
  · intro t ht
    simp [debugSiteStep, ht]
  · intro h
    simp [debugSiteStep, h, debug_latch_mono]
  · intro h
    simp only [debugSiteStep, if_pos rfl] at h
    exact debug_latch_set_only_by_suppress cfg level (latches site) expr
      s msg exprText file line func uncaught inputs h

/-- C5 witness: with all latches initially false, an ignore-forever run
at site 0 leaves site 1's latch untouched; a latch that is true stays
true; and a latch observed true after the step means it was true before
or the run resolved to Suppressed. -/
theorem C5_per_site_ignore_latch_witness :
    initialLatches 0 = false
    ∧ (debugSiteStep initialLatches 0 cfgAll .Debug (fun s => (false, s))
        0 "m" "x" "f.cpp" 1 "fn" 0 ["F"]).2 1 = initialLatches 1
    ∧ (debugSiteStep (fun _ => true) 0 cfgAll .Debug (fun s => (false, s))
        0 "m" "x" "f.cpp" 1 "fn" 0 ["F"]).2 0 = true
    ∧ (initialLatches 0 = true ∨ (promptLoop ["F"]).1
        = some Resolution.Suppressed) :=
  ⟨(C5_per_site_ignore_latch initialLatches 0 cfgAll .Debug
      (fun s => (false, s)) 0 "m" "x" "f.cpp" 1 "fn" 0 ["F"]).1,
   (C5_per_site_ignore_latch initialLatches 0 cfgAll .Debug
      (fun s => (false, s)) 0 "m" "x" "f.cpp" 1 "fn" 0 ["F"]).2.1 1
      (by decide),
   (C5_per_site_ignore_latch (fun _ => true) 0 cfgAll .Debug
      (fun s => (false, s)) 0 "m" "x" "f.cpp" 1 "fn" 0 ["F"]).2.2.1 rfl,
   (C5_per_site_ignore_latch initialLatches 0 cfgAll .Debug
      (fun s => (false, s)) 0 "m" "x" "f.cpp" 1 "fn" 0 ["F"]).2.2.2
      (by decide)⟩

/-- Decomposition of the default Error-level report line: it starts with
the literal `[ERROR]` followed by the remaining fields and ends with the
formatted message. -/
lemma reportString_error_decomp (msg exprText file func : String)
    (line u : Nat) :
    reportString
        { level := .Error, message := msg, expression := exprText,
          file := file, line := line, function := func,
          uncaughtCount := u }
      = "[ERROR]" ++ (" Uncaught: " ++ (toString u ++ (", File: " ++
          (file ++ (", Function: " ++ (func ++ (", Line: " ++
          (toString line ++ (", Expression: \"" ++ (exprText ++
          ("\", Message: " ++ msg))))))))))) := by
  have hlit : ("[" : String) ++ "ERROR" ++ "] Uncaught: "
      = "[ERROR]" ++ " Uncaught: " := by decide
  show ("[" : String) ++ "ERROR" ++ "] Uncaught: " ++ toString u ++
      ", File: " ++ file ++ ", Function: " ++ func ++ ", Line: " ++
      toString line ++ ", Expression: \"" ++ exprText ++
      "\", Message: " ++ msg = _
  rw [hlit]
  simp only [String.append_assoc]

/-- C6: an Error-level failing check dispatched to the default executor
reports the context and always raises the assertion-escalation exception
carrying exactly the formatted message: the caller observes a
`CAssertException` whose message equals the reported one, and the report
line contains the literal `[ERROR]` and the formatted message as
substrings. -/
theorem C6_handle_error_reports_and_escalates (cfg : CAssertConfig)
    (expr : Nat → Bool × Nat) (s : Nat) (msg exprText file : String)
    (line : Nat) (func : String) (uncaught : Nat)
    (hA : cfg.IsActiveAssert .Error = true)
    (hE : (expr s).1 = false) :
    (IMPL_DBGH_ASSERT cfg .Error expr s msg exprText file line func
        uncaught defaultHandler).result
      = .raised (mkCAssertException msg)
    ∧ (mkCAssertException msg).message = msg
    ∧ Event.reportLine (reportString
        { level := .Error, message := msg, expression := exprText,
          file := file, line := line, function := func,
          uncaughtCount := uncaught })
      ∈ (IMPL_DBGH_ASSERT cfg .Error expr s msg exprText file line func
          uncaught defaultHandler).events
    ∧ ContainsSubstr (reportString
        { level := .Error, message := msg, expression := exprText,
          file := file, line := line, function := func,
          uncaughtCount := uncaught }) "[ERROR]"
    ∧ ContainsSubstr (reportString
        { level := .Error, message := msg, expression := exprText,
          file := file, line := line, function := func,
          uncaughtCount := uncaught }) msg := by
  rcases hp : expr s with ⟨b, s2⟩
  have hb : b = false := by simpa [hp] using hE
  subst hb
  refine ⟨?_, rfl, ?_, ?_, ?_⟩
  · simp [IMPL_DBGH_ASSERT, hA, hp, defaultHandler,
      sliceToAssertException, mkCAssertException]
  · simp [IMPL_DBGH_ASSERT, hA, hp, defaultHandler,
      sliceToAssertException, mkCAssertException]
  · refine ⟨"", " Uncaught: " ++ (toString uncaught ++ (", File: " ++
      (file ++ (", Function: " ++ (func ++ (", Line: " ++
      (toString line ++ (", Expression: \"" ++ (exprText ++
      ("\", Message: " ++ msg)))))))))), ?_⟩
    rw [String.empty_append, reportString_error_decomp]
  · refine ⟨"[" ++ levelName .Error ++ "] Uncaught: " ++
      toString uncaught ++ ", File: " ++ file ++ ", Function: " ++
      func ++ ", Line: " ++ toString line ++ ", Expression: \"" ++
      exprText ++ "\", Message: ", "", ?_⟩
    rw [String.append_empty]
    rfl

/-- C6 witness: expression text `2 < 1`, formatted message
`bad value 5` — the caller observes a `CAssertException` whose message
is exactly `bad value 5`, and the report contains `[ERROR]` and
`bad value 5`. -/
theorem C6_handle_error_reports_and_escalates_witness :
    cfgAll.IsActiveAssert .Error = true
    ∧ (((fun s => (false, s)) : Nat → Bool × Nat) 0).1 = false
    ∧ (IMPL_DBGH_ASSERT cfgAll .Error (fun s => (false, s)) 0
        "bad value 5" "2 < 1" "t.cpp" 42 "main" 0 defaultHandler).result
      = .raised (mkCAssertException "bad value 5")
    ∧ (mkCAssertException "bad value 5").message = "bad value 5"
    ∧ ContainsSubstr (reportString
        { level := .Error, message := "bad value 5",
          expression := "2 < 1", file := "t.cpp", line := 42,
          function := "main", uncaughtCount := 0 }) "[ERROR]"
    ∧ ContainsSubstr (reportString
        { level := .Error, message := "bad value 5",
          expression := "2 < 1", file := "t.cpp", line := 42,
          function := "main", uncaughtCount := 0 }) "bad value 5" :=
  ⟨by decide, by decide,
   (C6_handle_error_reports_and_escalates cfgAll (fun s => (false, s)) 0
      "bad value 5" "2 < 1" "t.cpp" 42 "main" 0 (by decide)
      (by decide)).1,
   (C6_handle_error_reports_and_escalates cfgAll (fun s => (false, s)) 0
      "bad value 5" "2 < 1" "t.cpp" 42 "main" 0 (by decide)
      (by decide)).2.1,
   (C6_handle_error_reports_and_escalates cfgAll (fun s => (false, s)) 0
      "bad value 5" "2 < 1" "t.cpp" 42 "main" 0 (by decide)
      (by decide)).2.2.2.1,
   (C6_handle_error_reports_and_escalates cfgAll (fun s => (false, s)) 0
      "bad value 5" "2 < 1" "t.cpp" 42 "main" 0 (by decide)
      (by decide)).2.2.2.2⟩

/-- C7: the interactive protocol accepts exactly the single-character
commands I, F, D, T, B case-insensitively, one token at a time: the ten
accepted tokens map to Continue, Suppressed, Break, Escalate, Abort
respectively; no other token is accepted; an invalid token re-prompts
with the same eventual outcome and no latch effect; and a run resolving
to Suppressed sets the latch true. -/
theorem C7_interactive_protocol :
    (parseCommand "I" = some Resolution.Continue
      ∧ parseCommand "i" = some Resolution.Continue
      ∧ parseCommand "F" = some Resolution.Suppressed
      ∧ parseCommand "f" = some Resolution.Suppressed
      ∧ parseCommand "D" = some Resolution.Break
      ∧ parseCommand "d" = some Resolution.Break
      ∧ parseCommand "T" = some Resolution.Escalate
      ∧ parseCommand "t" = some Resolution.Escalate
      ∧ parseCommand "B" = some Resolution.Abort
      ∧ parseCommand "b" = some Resolution.Abort)
    ∧ (∀ tok, parseCommand tok ≠ none →
        tok ∈ ["I", "i", "F", "f", "D", "d", "T", "t", "B", "b"])
    ∧ (∀ tok rest, parseCommand tok = none →
        (promptLoop (tok :: rest)).1 = (promptLoop rest).1)
    ∧ (∀ ctx latch tok rest, parseCommand tok = none →
        (HandleAssertDebug ctx latch (tok :: rest)).1
          = (HandleAssertDebug ctx latch rest).1
        ∧ (HandleAssertDebug ctx latch (tok :: rest)).2.1
          = (HandleAssertDebug ctx latch rest).2.1)
    ∧ (∀ ctx latch inputs,
        (promptLoop inputs).1 = some Resolution.Suppressed →
        (HandleAssertDebug ctx latch inputs).2.1 = true) := by
  refine ⟨by decide, ?_, ?_, ?_, ?_⟩
  · intro tok h
    by_contra hmem
    simp only [List.mem_cons, List.not_mem_nil, or_false, not_or] at hmem
    obtain ⟨h1, h2, h3, h4, h5, h6, h7, h8, h9, h10⟩ := hmem
    exact h (by simp [parseCommand, h1, h2, h3, h4, h5, h6, h7, h8, h9,
      h10])
  · intro tok rest h
    rcases hq : promptLoop rest with ⟨r0, evs0⟩
    simp [promptLoop, h, hq]
  · intro ctx latch tok rest h
    rcases hq : promptLoop rest with ⟨r0, evs0⟩
    cases r0 <;>
      constructor <;>
        simp [HandleAssertDebug, promptLoop, h, hq]
  · intro ctx latch inputs h
    rcases hq : promptLoop inputs with ⟨r0, evs0⟩
    rw [hq] at h
    have hres : r0 = some Resolution.Suppressed := h
    subst hres
    simp [HandleAssertDebug, hq, resolutionOutcome]

/-- C7 witness: the invalid token `"x"` is not a command; it re-prompts
without changing the eventual resolution or the latch, and the
Suppressed run `"f"` latches the site. -/
theorem C7_interactive_protocol_witness :
    parseCommand "x" = none
    ∧ (promptLoop ["x", "d"]).1 = (promptLoop ["d"]).1
    ∧ (HandleAssertDebug ctxDebugSample false ["x", "f"]).2.1
      = (HandleAssertDebug ctxDebugSample false ["f"]).2.1
    ∧ (HandleAssertDebug ctxDebugSample false ["f"]).2.1 = true :=
  ⟨by decide,
   C7_interactive_protocol.2.2.1 "x" ["d"] (by decide),
   (C7_interactive_protocol.2.2.2.1 ctxDebugSample false "x" ["f"]
      (by decide)).2,
   C7_interactive_protocol.2.2.2.2 ctxDebugSample false ["f"]
      (by decide)⟩

end dbgh
